import Mathlib

/-!
Shallow embedding of the tgbot repository core: the bot-merger
(aggregation engine, `bot_merger.go`) and the login-bot conversation
bridge (`bots/loginbot`), with theorems settling the frozen claims.

Go maps are modelled as association lists (`AssocMap`) processed in list
order; Go channels (capacity 1) and contexts are modelled as explicit
slot fields; the nondeterministic choice Go's `select` makes when more
than one case is ready is an explicit boolean pick.
-/

set_option linter.unusedVariables false

deriving instance DecidableEq for Except

namespace Tgbot

/-! ## Association maps (model of Go maps) -/

abbrev AssocMap (κ α : Type) : Type := List (κ × α)

def lookupA {κ α : Type} [DecidableEq κ] : AssocMap κ α → κ → Option α
  | [], _ => none
  | (k, v) :: rest, key => if key = k then some v else lookupA rest key

def insertA {κ α : Type} [DecidableEq κ] : AssocMap κ α → κ → α → AssocMap κ α
  | [], key, val => [(key, val)]
  | (k, v) :: rest, key, val =>
      if key = k then (k, val) :: rest else (k, v) :: insertA rest key val

def eraseA {κ α : Type} [DecidableEq κ] : AssocMap κ α → κ → AssocMap κ α
  | [], _ => []
  | (k, v) :: rest, key => if key = k then rest else (k, v) :: eraseA rest key

/-! ## Bot merger (`bot_merger.go`) -/

structure BotCommand where
  command : String
  description : String
deriving DecidableEq

inductive ConflictStrategy where
  | keepOriginal
  | replaceWithNew
  | suffixConflicting
deriving DecidableEq

structure MergerConfig where
  conflictStrategy : ConflictStrategy
  defaultSuffix : String
  failOnConflict : Bool
  hasLogger : Bool
deriving DecidableEq

/-- A bot module as seen by the merger: the `Bot` interface of `bot.go`.
Handlers, callbacks, middleware entries and the default handler are opaque
to the merge logic, so they are represented by an arbitrary type `H`. -/
structure BotModule (H : Type) where
  commands : AssocMap String H
  commandsList : List BotCommand
  callBacks : AssocMap String H
  middleware : List H
  defaultHandler : H
deriving DecidableEq

/-- The merged registry owned by `BotMerger`. -/
structure MergedRegistry (H : Type) where
  commands : AssocMap String H
  callBacks : AssocMap String H
  middleware : List H
  commandsList : List BotCommand
  defaultHandlers : List H
deriving DecidableEq

def emptyRegistry {H : Type} : MergedRegistry H :=
  { commands := [], callBacks := [], middleware := [], commandsList := [],
    defaultHandlers := [] }

def handleCommandConflict {H : Type} (cfg : MergerConfig)
    (m : AssocMap String H) (cmd : String) (newHandler : H) :
    Except String (AssocMap String H) :=
  if cfg.failOnConflict then
    Except.error ("command conflict detected: " ++ cmd)
  else
    match cfg.conflictStrategy with
    | ConflictStrategy.keepOriginal => Except.ok m
    | ConflictStrategy.replaceWithNew => Except.ok (insertA m cmd newHandler)
    | ConflictStrategy.suffixConflicting =>
        Except.ok (insertA m (cmd ++ cfg.defaultSuffix) newHandler)

def mergeCommands {H : Type} (cfg : MergerConfig) :
    AssocMap String H → List (String × H) → Except String (AssocMap String H)
  | m, [] => Except.ok m
  | m, (cmd, handler) :: rest =>
    match lookupA m cmd with
    | some _ =>
      match handleCommandConflict cfg m cmd handler with
      | Except.error e => Except.error e
      | Except.ok m1 => mergeCommands cfg m1 rest
    | none => mergeCommands cfg (insertA m cmd handler) rest

def handleCallbackConflict {H : Type} (cfg : MergerConfig)
    (m : AssocMap String H) (pattern : String) (newCallback : H) :
    Except String (AssocMap String H) :=
  if cfg.failOnConflict then
    Except.error ("callback conflict detected: " ++ pattern)
  else
    match cfg.conflictStrategy with
    | ConflictStrategy.keepOriginal => Except.ok m
    | ConflictStrategy.replaceWithNew => Except.ok (insertA m pattern newCallback)
    | ConflictStrategy.suffixConflicting =>
        Except.ok (insertA m (cfg.defaultSuffix ++ pattern) newCallback)

def mergeCallbacks {H : Type} (cfg : MergerConfig) :
    AssocMap String H → List (String × H) → Except String (AssocMap String H)
  | m, [] => Except.ok m
  | m, (pattern, callback) :: rest =>
    match lookupA m pattern with
    | some _ =>
      match handleCallbackConflict cfg m pattern callback with
      | Except.error e => Except.error e
      | Except.ok m1 => mergeCallbacks cfg m1 rest
    | none => mergeCallbacks cfg (insertA m pattern callback) rest

def cmdInList (l : List BotCommand) (c : String) : Bool :=
  l.any (fun e => e.command == c)

/-- One step of `mergeCommandsList`.  In the Go source the `ReplaceWithNew`
branch assigns the new description to `existing`, which is the value copy
produced by `range` over a slice of structs, so the stored list entry is
left unchanged; the branch is therefore a no-op on the list.  Note that the
`FailOnConflict` flag is not consulted anywhere in this function. -/
def mergeListOne (cfg : MergerConfig) (l : List BotCommand) (cmd : BotCommand) :
    List BotCommand :=
  if cmdInList l cmd.command then
    match cfg.conflictStrategy with
    | ConflictStrategy.keepOriginal => l
    | ConflictStrategy.replaceWithNew => l
    | ConflictStrategy.suffixConflicting =>
        l ++ [{ cmd with command := cmd.command ++ cfg.defaultSuffix }]
  else
    if cfg.conflictStrategy ≠ ConflictStrategy.suffixConflicting then
      l ++ [cmd]
    else
      l

def mergeCommandsList (cfg : MergerConfig) (l : List BotCommand)
    (newCommands : List BotCommand) : List BotCommand :=
  newCommands.foldl (mergeListOne cfg) l

def mergeBot {H : Type} (cfg : MergerConfig) (r : MergedRegistry H)
    (b : BotModule H) : Except String (MergedRegistry H) :=
  match mergeCommands cfg r.commands b.commands with
  | Except.error e => Except.error e
  | Except.ok cmds =>
    let clist := mergeCommandsList cfg r.commandsList b.commandsList
    match mergeCallbacks cfg r.callBacks b.callBacks with
    | Except.error e => Except.error e
    | Except.ok cbs =>
      Except.ok
        { commands := cmds, callBacks := cbs,
          middleware := r.middleware ++ b.middleware,
          commandsList := clist,
          defaultHandlers := r.defaultHandlers ++ [b.defaultHandler] }

def mergeBots {H : Type} (cfg : MergerConfig) :
    MergedRegistry H → List (BotModule H) → Except String (MergedRegistry H)
  | r, [] => Except.ok r
  | r, b :: rest =>
    match mergeBot cfg r b with
    | Except.error e => Except.error ("failed to merge bot: " ++ e)
    | Except.ok r1 => mergeBots cfg r1 rest

def validateConfig (cfg : MergerConfig) : Except String Unit :=
  if !cfg.hasLogger then
    Except.error "logger cannot be nil"
  else if cfg.conflictStrategy = ConflictStrategy.suffixConflicting ∧
      cfg.defaultSuffix = "" then
    Except.error "default suffix must be set when using SuffixConflicting strategy"
  else
    Except.ok ()

def NewBotMerger {H : Type} (cfg : MergerConfig) :
    Except String (MergedRegistry H) :=
  match validateConfig cfg with
  | Except.error e => Except.error ("invalid merger config: " ++ e)
  | Except.ok _ => Except.ok emptyRegistry

/-- Result extractor used to state concrete facts about successful merges. -/
def regOf {H : Type} (e : Except String (MergedRegistry H)) : MergedRegistry H :=
  match e with
  | Except.ok r => r
  | Except.error _ => emptyRegistry

/-! ## Login bot (`bots/loginbot`)

A `loginRequest` bundles a buffered answer channel of capacity one and a
cancellable timeout context.  A channel is modelled by its buffer content
(`chanVal`) and a closed flag; a context by its done flag.  Slots live in a
store indexed by creation order, so that a blocked `ask` call can keep its
reference to a channel even after the slot is removed from the table, just
as the Go goroutine does. -/

abbrev ChatID := Int

def reqType2Fa : String := "2fa"
def reqTypeCode : String := "code"
def reqTypePhone : String := "phone"

inductive LoginErr where
  | errTimeout
  | errCanceled
  | sendFailed (msg : String)
deriving DecidableEq

structure Slot where
  reqType : String
  chanVal : Option String
  chanClosed : Bool
  ctxDone : Bool
  created : Nat
deriving DecidableEq

structure LoginBotState where
  slots : List Slot
  loginRequests : AssocMap ChatID (AssocMap String Nat)
  login2FAIdx : AssocMap ChatID Int
deriving DecidableEq

def emptyLoginState : LoginBotState :=
  { slots := [], loginRequests := [], login2FAIdx := [] }

def modifyAt : List Slot → Nat → (Slot → Slot) → List Slot
  | [], _, _ => []
  | s :: rest, 0, f => f s :: rest
  | s :: rest, n + 1, f => s :: modifyAt rest n f

/-- Model of `req.cancel()`: the context's done channel closes. -/
def cancelCtx (st : LoginBotState) (sid : Nat) : LoginBotState :=
  { st with slots := modifyAt st.slots sid (fun s => { s with ctxDone := true }) }

/-- Model of `close(req.response)`. -/
def closeChan (st : LoginBotState) (sid : Nat) : LoginBotState :=
  { st with slots := modifyAt st.slots sid (fun s => { s with chanClosed := true }) }

/-- `createRequest` (`loginbot.go`): cancel and close any existing slot for
the same `(chatID, reqType)` pair, then install a fresh slot.  Returns the
new slot's store index (the reference the blocked caller holds). -/
def createRequest (st : LoginBotState) (chatID : ChatID) (reqType : String)
    (now : Nat) : LoginBotState × Nat :=
  let chatReqs := (lookupA st.loginRequests chatID).getD []
  let st1 :=
    match lookupA chatReqs reqType with
    | some oldSid => closeChan (cancelCtx st oldSid) oldSid
    | none => st
  let sid := st1.slots.length
  let newSlot : Slot :=
    { reqType := reqType, chanVal := none, chanClosed := false,
      ctxDone := false, created := now }
  ({ st1 with slots := st1.slots ++ [newSlot],
              loginRequests :=
                insertA st1.loginRequests chatID (insertA chatReqs reqType sid) },
   sid)

def getRequest (st : LoginBotState) (chatID : ChatID) (reqType : String) :
    Option Nat :=
  match lookupA st.loginRequests chatID with
  | some reqs => lookupA reqs reqType
  | none => none

def hasAnyRequests (st : LoginBotState) (chatID : ChatID) : Bool :=
  match lookupA st.loginRequests chatID with
  | some reqs => !reqs.isEmpty
  | none => false

/-- `removeRequest`: cancel the slot's context (the channel is not closed
here), drop it from the table, and drop the chat entry and its two-factor
retry counter once the chat's slot map is empty. -/
def removeRequest (st : LoginBotState) (chatID : ChatID) (reqType : String) :
    LoginBotState :=
  match lookupA st.loginRequests chatID with
  | none => st
  | some chatReqs =>
    let st1 :=
      match lookupA chatReqs reqType with
      | some sid => cancelCtx st sid
      | none => st
    let chatReqs1 := eraseA chatReqs reqType
    if chatReqs1.isEmpty then
      { st1 with loginRequests := eraseA st1.loginRequests chatID,
                 login2FAIdx := eraseA st1.login2FAIdx chatID }
    else
      { st1 with loginRequests := insertA st1.loginRequests chatID chatReqs1 }

/-- `HasOpenReq(chatID, reqType)` (the variant with a request-kind argument). -/
def hasOpenReq (st : LoginBotState) (chatID : ChatID) (reqType : String) : Bool :=
  match lookupA st.loginRequests chatID with
  | some reqs => (lookupA reqs reqType).isSome
  | none => false

/-- `Shutdown`: cancel and close every slot reachable from the table, then
clear both maps. -/
def shutdown (st : LoginBotState) : LoginBotState :=
  let sids := st.loginRequests.foldl (fun acc p => acc ++ p.2.map Prod.snd) []
  let st1 := sids.foldl (fun s sid => closeChan (cancelCtx s sid) sid) st
  { st1 with loginRequests := [], login2FAIdx := [] }

/-! ### Prompt texts (`part_004` of the unnamed sources) and send oracle -/

def phoneMsg : String := "🔐 Please enter your phone number:"
def loginCodeMsg : String := "🔐 Quick Start! Please enter the Telegram code you received:"
def twofaCodeMsg : String := "🔐 Please enter your 2FA code:"

def msg2FaIncorrect (attemptLeft : Int) : String :=
  "🔐 *Oops!* Looks like the 2FA Code didn't match. \n🌟 Please re-enter your code carefully. \n👀 *Attempts Remaining:* "
    ++ toString attemptLeft ++ " \n\nNo worries, you've got this! 🔑"

/-- The Sender collaborator: `none` means the send succeeded, `some e`
that it failed with error text `e`. -/
abbrev SendOracle := ChatID → String → Option String

/-! ### The blocking ask operations

Each Go ask method first sends its prompt, then creates the slot, then
blocks on `select { case resp := <-respChan; case <-ctx.Done() }`.  The
non-blocking prefix is `...Start` below; the blocking select is
`askResolve`. -/

structure AskStart where
  state : LoginBotState
  sent : List (ChatID × String)
  result : Except LoginErr Nat
deriving DecidableEq

def askPhoneStart (send : SendOracle) (st : LoginBotState) (chatID : ChatID)
    (now : Nat) : AskStart :=
  match send chatID phoneMsg with
  | some e =>
    { state := st, sent := [(chatID, phoneMsg)],
      result := Except.error (LoginErr.sendFailed ("failed to send phone request: " ++ e)) }
  | none =>
    let p := createRequest st chatID reqTypePhone now
    { state := p.1, sent := [(chatID, phoneMsg)], result := Except.ok p.2 }

def sendCodeRequestStart (send : SendOracle) (st : LoginBotState)
    (chatID : ChatID) (now : Nat) : AskStart :=
  match send chatID loginCodeMsg with
  | some e =>
    { state := st, sent := [(chatID, loginCodeMsg)],
      result := Except.error (LoginErr.sendFailed ("failed to send login code request: " ++ e)) }
  | none =>
    let p := createRequest st chatID reqTypeCode now
    { state := p.1, sent := [(chatID, loginCodeMsg)], result := Except.ok p.2 }

def ask2FAMain (send : SendOracle) (st : LoginBotState) (chatID : ChatID)
    (attemptLeft : Int) (now : Nat) (sentSoFar : List (ChatID × String)) :
    AskStart :=
  match send chatID twofaCodeMsg with
  | some e =>
    { state := st, sent := sentSoFar ++ [(chatID, twofaCodeMsg)],
      result := Except.error (LoginErr.sendFailed ("failed to send 2fa request: " ++ e)) }
  | none =>
    let p := createRequest st chatID reqType2Fa now
    { state := { p.1 with login2FAIdx := insertA p.1.login2FAIdx chatID (attemptLeft + 1) },
      sent := sentSoFar ++ [(chatID, twofaCodeMsg)],
      result := Except.ok p.2 }

def ask2FAStart (send : SendOracle) (st : LoginBotState) (chatID : ChatID)
    (attemptLeft : Int) (now : Nat) : AskStart :=
  if attemptLeft > 0 then
    match send chatID (msg2FaIncorrect attemptLeft) with
    | some e =>
      { state := st, sent := [(chatID, msg2FaIncorrect attemptLeft)],
        result := Except.error (LoginErr.sendFailed ("send 2fa incorrect message: " ++ e)) }
    | none => ask2FAMain send st chatID attemptLeft now
        [(chatID, msg2FaIncorrect attemptLeft)]
  else
    ask2FAMain send st chatID attemptLeft now []

/-- One resolution of the blocked select of an ask call holding slot `sid`.
`none` means neither case is ready (the caller stays blocked).  When both
the answer-channel case and the context's done case are ready at once, Go
chooses between them pseudo-randomly; `pickChan` names that choice (`true`
for the channel case).  Receiving from a closed channel yields its buffered
value when there is one, and otherwise the zero value with `ok = false`,
which the source maps to `ErrCanceled`.  The done case calls
`removeRequest` and returns `ErrTimeout`. -/
def askResolve (st : LoginBotState) (chatID : ChatID) (reqType : String)
    (sid : Nat) (pickChan : Bool) :
    Option (LoginBotState × Except LoginErr String) :=
  match st.slots.get? sid with
  | none => none
  | some slot =>
    let chanReady := slot.chanVal.isSome || slot.chanClosed
    if chanReady && (!slot.ctxDone || pickChan) then
      match slot.chanVal with
      | some v =>
        some ({ st with slots := modifyAt st.slots sid (fun s => { s with chanVal := none }) },
              Except.ok v)
      | none => some (st, Except.error LoginErr.errCanceled)
    else if slot.ctxDone then
      some (removeRequest st chatID reqType, Except.error LoginErr.errTimeout)
    else
      none

/-! ### Answer routing (`utils.go`, `commands.go` and the callbacks) -/

/-- RE2 word characters: the `\b` in the code regex is an ASCII word
boundary, and `\d` matches ASCII digits. -/
def isWordChar (c : Char) : Bool := c.isAlphanum || c == '_'

def boundaryOk : Option Char → Bool
  | none => true
  | some c => !isWordChar c

/-- Matches `\d{5}\b` at the head of the character list. -/
def fiveDigitsAt : List Char → Option (List Char)
  | a :: b :: c :: d :: e :: rest =>
    if a.isDigit && b.isDigit && c.isDigit && d.isDigit && e.isDigit then
      match rest with
      | [] => some [a, b, c, d, e]
      | f :: _ => if isWordChar f then none else some [a, b, c, d, e]
    else
      none
  | _ => none

/-- Leftmost match of the regex `\b\d{5}\b`; `prev` is the character just
before the current position. -/
def findCode : Option Char → List Char → Option (List Char)
  | _, [] => none
  | prev, c :: rest =>
    if boundaryOk prev then
      match fiveDigitsAt (c :: rest) with
      | some ds => some ds
      | none => findCode (some c) rest
    else
      findCode (some c) rest

/-- `extractCode`: first 5-digit numeric code in the text, else `""`. -/
def extractCode (s : String) : String :=
  match findCode none s.data with
  | some ds => String.mk ds
  | none => ""

/-- `hasCode`: whether the text contains a 5-digit numeric code. -/
def hasCode (s : String) : Bool :=
  (findCode none s.data).isSome

/-- `strings.HasPrefix s pre`, stated on the character lists. -/
def hasPrefixStr (s pre : String) : Bool :=
  s.data.take pre.data.length == pre.data

/-- `strings.TrimSpace`: drop leading and trailing whitespace. -/
def trimSpace (s : String) : String :=
  String.mk
    (((s.data.dropWhile Char.isWhitespace).reverse.dropWhile Char.isWhitespace).reverse)

structure DeliverResult where
  state : LoginBotState
  sent : List (ChatID × String)
deriving DecidableEq

/-- The non-blocking `select { case req.response <- v: ... default: ... }`:
succeeds only when the capacity-one buffer is free and the channel open. -/
def trySendSlot (st : LoginBotState) (sid : Nat) (v : String) :
    LoginBotState × Bool :=
  match st.slots.get? sid with
  | some slot =>
    if slot.chanVal.isNone && !slot.chanClosed then
      ({ st with slots := modifyAt st.slots sid (fun s => { s with chanVal := some v }) },
       true)
    else
      (st, false)
  | none => (st, false)

def handle2FACallback (send : SendOracle) (st : LoginBotState)
    (chatID : ChatID) (text : String) : DeliverResult :=
  match getRequest st chatID reqType2Fa with
  | none => { state := st, sent := [] }
  | some sid =>
    let code := trimSpace text
    if code = "" then
      { state := st, sent := [(chatID, "Invalid 2FA code")] }
    else
      let p := trySendSlot st sid code
      if p.2 then
        { state := removeRequest p.1 chatID reqType2Fa, sent := [] }
      else
        { state := p.1, sent := [] }

def handleCodeCallback (send : SendOracle) (st : LoginBotState)
    (chatID : ChatID) (text : String) : DeliverResult :=
  match getRequest st chatID reqTypeCode with
  | none => { state := st, sent := [] }
  | some sid =>
    let code := extractCode text
    if code = "" then
      { state := st,
        sent := [(chatID, "Text message does not contain a code, please try again.")] }
    else
      let p := trySendSlot st sid code
      if p.2 then
        { state := removeRequest p.1 chatID reqTypeCode, sent := [] }
      else
        { state := p.1, sent := [] }

/-- `handlePhoneCallback`, with the third-party phone-number library
(`phonenumber.GetISO3166ByNumber` composed with `phonenumber.Parse`)
abstracted as an arbitrary function `parse` applied to the trimmed text. -/
def handlePhoneCallback (send : SendOracle) (parse : String → String)
    (st : LoginBotState) (chatID : ChatID) (text : String) : DeliverResult :=
  match getRequest st chatID reqTypePhone with
  | none => { state := st, sent := [] }
  | some sid =>
    let phone0 := parse (trimSpace text)
    if phone0 = "" then
      { state := st, sent := [(chatID, "Invalid phone number")] }
    else
      let phone := if hasPrefixStr phone0 "+" then phone0 else "+" ++ phone0
      let p := trySendSlot st sid phone
      if p.2 then
        { state := removeRequest p.1 chatID reqTypePhone, sent := [] }
      else
        { state := p.1, sent := [] }

def handleMessage (send : SendOracle) (parse : String → String)
    (st : LoginBotState) (chatID : ChatID) (text : String) : DeliverResult :=
  if hasOpenReq st chatID reqType2Fa then
    handle2FACallback send st chatID text
  else if hasOpenReq st chatID reqTypeCode then
    handleCodeCallback send st chatID text
  else if hasOpenReq st chatID reqTypePhone then
    handlePhoneCallback send parse st chatID text
  else
    { state := st, sent := [(chatID, "No open login requests")] }

inductive RouteResult where
  | consumed (res : DeliverResult)
  | next
deriving DecidableEq

/-- `LoginMiddlware`: an inbound message is consumed by the conversation
path if and only if the chat has at least one open slot and the text
contains a 5-digit code; otherwise it is passed to the next handler. -/
def loginMiddleware (send : SendOracle) (parse : String → String)
    (st : LoginBotState) (chatID : ChatID) (text : String) : RouteResult :=
  if hasAnyRequests st chatID && hasCode text then
    RouteResult.consumed (handleMessage send parse st chatID text)
  else
    RouteResult.next

/-! ## Derived helpers used to state the claims -/

def isOkE {ε α : Type} : Except ε α → Bool
  | Except.ok _ => true
  | Except.error _ => false

def routedState (r : RouteResult) (fallback : LoginBotState) : LoginBotState :=
  match r with
  | RouteResult.consumed d => d.state
  | RouteResult.next => fallback

def isConsumed : RouteResult → Bool
  | RouteResult.consumed _ => true
  | RouteResult.next => false

/-- The first key of the incoming list that collides while folding the list
into map `m` (non-colliding keys are inserted along the way, mirroring the
merge loop). -/
def firstConflictKey {κ α : Type} [DecidableEq κ] (m : AssocMap κ α) :
    List (κ × α) → Option κ
  | [] => none
  | (k, v) :: rest =>
    if (lookupA m k).isSome then some k else firstConflictKey (insertA m k v) rest

def insertAllA {κ α : Type} [DecidableEq κ] (m : AssocMap κ α) :
    List (κ × α) → AssocMap κ α
  | [] => m
  | (k, v) :: rest => insertAllA (insertA m k v) rest

/-- What the merge loop computes when no conflict aborts and the strategy
keeps originals: insert only the keys not already present. -/
def insertIfAbsentAll {κ α : Type} [DecidableEq κ] (m : AssocMap κ α) :
    List (κ × α) → AssocMap κ α
  | [] => m
  | (k, v) :: rest =>
    if (lookupA m k).isSome then insertIfAbsentAll m rest
    else insertIfAbsentAll (insertA m k v) rest

/-! ## Concrete scenarios used by the claims -/

def sendOK : SendOracle := fun _ _ => none

def parseId : String → String := fun s => s

/-- A phone parser standing for a successful `phonenumber.Parse`. -/
def parseConst : String → String := fun _ => "31612345678"

/-- A chat with one open two-factor slot (slot id 0). -/
def st2fa : LoginBotState := (ask2FAStart sendOK emptyLoginState 1 0 0).state

/-- A chat with one open code slot (slot id 0). -/
def stCode : LoginBotState := (sendCodeRequestStart sendOK emptyLoginState 7 0).state

/-- Chat 42 with one open phone slot (slot id 0). -/
def st42a : LoginBotState := (askPhoneStart sendOK emptyLoginState 42 0).state

/-- Chat 42 after a second phone ask superseded the first: slot 0 is
cancelled and closed, slot 1 is the live one. -/
def st42b : LoginBotState := (askPhoneStart sendOK st42a 42 1).state

/-- Three open slots across two chats: phone and code for chat 1,
two-factor for chat 2 (slot ids 0, 1, 2). -/
def stThree : LoginBotState :=
  (ask2FAStart sendOK
    (sendCodeRequestStart sendOK (askPhoneStart sendOK emptyLoginState 1 0).state 1 1).state
    2 0 2).state

def stDown : LoginBotState := shutdown stThree

def cfgFail : MergerConfig :=
  { conflictStrategy := ConflictStrategy.keepOriginal, defaultSuffix := "",
    failOnConflict := true, hasLogger := true }

def cfgRep : MergerConfig :=
  { conflictStrategy := ConflictStrategy.replaceWithNew, defaultSuffix := "",
    failOnConflict := false, hasLogger := true }

def cfgKeep : MergerConfig :=
  { conflictStrategy := ConflictStrategy.keepOriginal, defaultSuffix := "",
    failOnConflict := false, hasLogger := true }

/-- Module contributing only the command-list entry `start`, description
`one`. -/
def modListOne : BotModule Nat :=
  { commands := [], commandsList := [{ command := "start", description := "one" }],
    callBacks := [], middleware := [], defaultHandler := 0 }

def modListTwo : BotModule Nat :=
  { commands := [], commandsList := [{ command := "start", description := "two" }],
    callBacks := [], middleware := [], defaultHandler := 0 }

def modRep1 : BotModule Nat :=
  { commands := [("start", 1)],
    commandsList := [{ command := "start", description := "one" }],
    callBacks := [("cb", 1)], middleware := [], defaultHandler := 0 }

def modRep2 : BotModule Nat :=
  { commands := [("start", 2)],
    commandsList := [{ command := "start", description := "two" }],
    callBacks := [("cb", 2)], middleware := [], defaultHandler := 0 }

def modKeep : BotModule Nat :=
  { commands := [("start", 1)],
    commandsList := [{ command := "start", description := "one" }],
    callBacks := [("cb", 1)], middleware := [5], defaultHandler := 7 }

def c5reg : MergedRegistry Nat :=
  regOf (mergeBots cfgRep emptyRegistry [modRep1, modRep2])

def c4reg : MergedRegistry Nat :=
  regOf (mergeBots cfgFail emptyRegistry [modListOne, modListTwo])

def c6once : MergedRegistry Nat :=
  regOf (mergeBots cfgKeep emptyRegistry [modKeep])

def c6twice : MergedRegistry Nat :=
  regOf (mergeBots cfgKeep emptyRegistry [modKeep, modKeep])

def cfgSuffix : MergerConfig :=
  { conflictStrategy := ConflictStrategy.suffixConflicting, defaultSuffix := "_x",
    failOnConflict := false, hasLogger := true }

def c4regStart : MergedRegistry Nat :=
  { commands := [("start", 1)], callBacks := [], middleware := [],
    commandsList := [], defaultHandlers := [] }

def sendFail : SendOracle := fun _ _ => some "boom"

/-- The slot created by `st42a`. -/
def slotPhone : Slot :=
  { reqType := "phone", chanVal := none, chanClosed := false, ctxDone := false,
    created := 0 }

/-! ## General lemmas about the association-map model -/

theorem lookupA_insertA {κ α : Type} [DecidableEq κ] (m : AssocMap κ α)
    (k k2 : κ) (v : α) :
    lookupA (insertA m k2 v) k = if k = k2 then some v else lookupA m k := by
  induction m with
  | nil => by_cases h : k = k2 <;> simp [insertA, lookupA, h]
  | cons p rest ih =>
    obtain ⟨k1, v1⟩ := p
    by_cases h2 : k2 = k1
    · subst h2
      by_cases h : k = k2 <;> simp [insertA, lookupA, h]
    · simp only [insertA, if_neg h2, lookupA]
      by_cases h1 : k = k1
      · subst h1
        have : ¬(k = k2) := fun hc => h2 (hc ▸ rfl)
        simp [lookupA, this]
      · simp [lookupA, h1, ih]

theorem lookupA_insertA_self {κ α : Type} [DecidableEq κ] (m : AssocMap κ α)
    (k : κ) (v : α) : lookupA (insertA m k v) k = some v := by
  rw [lookupA_insertA]; simp

theorem lookupA_isSome_insertA {κ α : Type} [DecidableEq κ] (m : AssocMap κ α)
    (k k2 : κ) (v : α) (h : (lookupA m k).isSome = true) :
    (lookupA (insertA m k2 v) k).isSome = true := by
  rw [lookupA_insertA]
  by_cases hk : k = k2 <;> simp [hk, h]

/-! ## Lemmas about the merge loop under fail-on-conflict -/

theorem mergeCommands_fail_conflict {H : Type} (cfg : MergerConfig)
    (hf : cfg.failOnConflict = true) :
    ∀ (new : List (String × H)) (m : AssocMap String H) (k : String),
      firstConflictKey m new = some k →
      mergeCommands cfg m new = Except.error ("command conflict detected: " ++ k) := by
  intro new
  induction new with
  | nil => intro m k h; simp [firstConflictKey] at h
  | cons p rest ih =>
    intro m k h
    obtain ⟨k1, v1⟩ := p
    cases hv : lookupA m k1 with
    | some v0 =>
      have hk : k1 = k := by simpa [firstConflictKey, hv] using h
      subst hk
      simp [mergeCommands, hv, handleCommandConflict, hf]
    | none =>
      have h1 : firstConflictKey (insertA m k1 v1) rest = some k := by
        simpa [firstConflictKey, hv] using h
      simp [mergeCommands, hv, ih _ _ h1]

/-- C1: contrary to the claim, a chat with an open two-factor slot does
not have every non-empty inbound text consumed by the conversation routing
path: `LoginMiddlware` routes a message only when the text contains a
5-digit code, so the non-empty password `hunter2` falls through to the
next handler with the slot still open, and a whitespace-only text likewise
falls through, so the corrective prompt is never sent.  The delivery
handler itself would accept `hunter2` (last conjunct), which is what the
claim describes — the routing gate contradicts it. -/
theorem C1_twofa_gate_bug :
    loginMiddleware sendOK parseId st2fa 1 "hunter2" = RouteResult.next ∧
    loginMiddleware sendOK parseId st2fa 1 "   " = RouteResult.next ∧
    hasOpenReq st2fa 1 reqType2Fa = true ∧
    ((handle2FACallback sendOK st2fa 1 "hunter2").state.slots.get? 0).map Slot.chanVal
      = some (some "hunter2") := by
  decide

/-- C2 counterexample: after a second phone ask for chat 42 supersedes the
first, the first slot's answer channel is closed and its context is
cancelled, so both cases of the first caller's select are ready; when the
select takes the context case (pick `false`), the first ask returns the
timeout error — refuting "always returns a cancellation-kind error (never
the timeout error)". -/
theorem C2_counterexample :
    (askResolve st42b 42 reqTypePhone 0 false).map Prod.snd
      = some (Except.error LoginErr.errTimeout) := by
  decide

/-- C2 amended: opening a second ask for the same (chat, kind) cancels and
closes the first slot, so the first ask call returns an error rather than
hanging: the cancellation error when its select takes the closed-channel
case — though the timeout error is also possible, since the superseding
cancels the first slot's context and makes both select cases ready
(`C2_counterexample`).  When the first caller observes the cancellation,
the second ask can later resolve normally with a delivered answer. -/
theorem C2_amended :
    (askResolve st42b 42 reqTypePhone 0 true).map Prod.snd
      = some (Except.error LoginErr.errCanceled) ∧
    (askResolve (handlePhoneCallback sendOK parseConst st42b 42 " 0612345678 ").state
        42 reqTypePhone 1 true).map Prod.snd
      = some (Except.ok "+31612345678") := by
  decide

/-- C3 counterexample: with a code slot open for chat 7, the inbound text
`no digits here` is not routed to the slot at all — `LoginMiddlware`
passes it to the next handler because it contains no 5-digit code — so no
corrective prompt is sent back to the chat, refuting that part of the
claim. -/
theorem C3_counterexample :
    loginMiddleware sendOK parseId stCode 7 "no digits here" = RouteResult.next := by
  decide

/-- C3 amended: with a code slot open for chat 7, the inbound text
`My code is 48213, thanks` is consumed by the routing path and delivers
exactly `48213` to the blocked ask; the text `no digits here` fails the
routing gate (no 5-digit code), is passed to normal dispatch instead, and
leaves the slot open — but no corrective prompt is sent, since the prompt
lives in the delivery handler the router never reaches for such texts. -/
theorem C3_amended :
    isConsumed (loginMiddleware sendOK parseId stCode 7 "My code is 48213, thanks")
      = true ∧
    (askResolve
        (routedState (loginMiddleware sendOK parseId stCode 7 "My code is 48213, thanks")
          stCode)
        7 reqTypeCode 0 true).map Prod.snd
      = some (Except.ok "48213") ∧
    loginMiddleware sendOK parseId stCode 7 "no digits here" = RouteResult.next ∧
    hasOpenReq stCode 7 reqTypeCode = true := by
  decide

/-- C4 counterexample: with `FailOnConflict` set, merging two modules whose
only collision is a command-list entry (`start`) succeeds — the command-list
merge never consults `FailOnConflict` — refuting that the abort "holds
uniformly across all three collections". -/
theorem C4_counterexample :
    isOkE (mergeBots cfgFail emptyRegistry [modListOne, modListTwo]) = true ∧
    c4reg.commandsList = [{ command := "start", description := "one" }] := by
  decide

/-- C5: the code is wrong at this input.  Under replace-with-new, merging
`modRep1` then `modRep2` leaves the last value for the colliding key in the
command-handler map and the callback-pattern map, but the command-list
entry's description stays `one`: the Go `ReplaceWithNew` branch assigns the
new description to the value copy produced by `range`, a no-op on the
stored list, contradicting the code's own comment and log message
("replaced command description in list"). -/
theorem C5_list_replace_noop :
    lookupA c5reg.commands "start" = some 2 ∧
    lookupA c5reg.callBacks "cb" = some 2 ∧
    c5reg.commandsList = [{ command := "start", description := "one" }] := by
  decide

/-- C6 counterexample: merging the module `modKeep` twice under
keep-original does not reproduce the once-merged registry — the middleware
and default-handler chains receive a second copy. -/
theorem C6_counterexample : c6twice ≠ c6once := by
  decide

/-- C9 counterexample: after shutdown with three open slots, a pending ask
whose select takes the context case (pick `false`) returns the timeout
error, not a cancellation error: shutdown both cancels each slot's context
and closes its channel, so both select cases are ready. -/
theorem C9_counterexample :
    (askResolve stDown 1 reqTypePhone 0 false).map Prod.snd
      = some (Except.error LoginErr.errTimeout) := by
  decide

/-- C9 amended: shutting down the bridge with three open slots across two
chats closes every slot's channel and cancels its context, so each pending
ask unblocks with an error: the cancellation error when its select takes
the closed-channel case (all three below), though the timeout error is also
possible since both cases are ready (`C9_counterexample`); the slot table
and the two-factor retry-counter map are left empty, and shutdown of a
bridge with zero open slots is a safe no-op. -/
theorem C9_amended :
    (askResolve stDown 1 reqTypePhone 0 true).map Prod.snd
      = some (Except.error LoginErr.errCanceled) ∧
    (askResolve stDown 1 reqTypeCode 1 true).map Prod.snd
      = some (Except.error LoginErr.errCanceled) ∧
    (askResolve stDown 2 reqType2Fa 2 true).map Prod.snd
      = some (Except.error LoginErr.errCanceled) ∧
    stDown.loginRequests = [] ∧
    stDown.login2FAIdx = [] ∧
    shutdown emptyLoginState = emptyLoginState := by
  decide

theorem mergeCommands_fail_ok {H : Type} (cfg : MergerConfig)
    (hf : cfg.failOnConflict = true) :
    ∀ (new : List (String × H)) (m : AssocMap String H),
      firstConflictKey m new = none →
      mergeCommands cfg m new = Except.ok (insertAllA m new) := by
  intro new
  induction new with
  | nil => intro m h; simp [mergeCommands, insertAllA]
  | cons p rest ih =>
    intro m h
    obtain ⟨k1, v1⟩ := p
    cases hv : lookupA m k1 with
    | some v0 => simp [firstConflictKey, hv] at h
    | none =>
      have h1 : firstConflictKey (insertA m k1 v1) rest = none := by
        simpa [firstConflictKey, hv] using h
      simp [mergeCommands, hv, insertAllA, ih _ h1]

theorem mergeCallbacks_fail_conflict {H : Type} (cfg : MergerConfig)
    (hf : cfg.failOnConflict = true) :
    ∀ (new : List (String × H)) (m : AssocMap String H) (k : String),
      firstConflictKey m new = some k →
      mergeCallbacks cfg m new = Except.error ("callback conflict detected: " ++ k) := by
  intro new
  induction new with
  | nil => intro m k h; simp [firstConflictKey] at h
  | cons p rest ih =>
    intro m k h
    obtain ⟨k1, v1⟩ := p
    cases hv : lookupA m k1 with
    | some v0 =>
      have hk : k1 = k := by simpa [firstConflictKey, hv] using h
      subst hk
      simp [mergeCallbacks, hv, handleCallbackConflict, hf]
    | none =>
      have h1 : firstConflictKey (insertA m k1 v1) rest = some k := by
        simpa [firstConflictKey, hv] using h
      simp [mergeCallbacks, hv, ih _ _ h1]

/-- C4 amended: when `FailOnConflict` is set, a merge aborts with an error
naming the first colliding command key (regardless of the three-way
strategy, which is left arbitrary here), and, when the commands are
conflict-free, with an error naming the first colliding callback pattern;
command-list collisions, however, never abort — the command-list merge is
total and ignores `FailOnConflict` (see `C4_counterexample`). -/
theorem C4_amended {H : Type} (cfg : MergerConfig) (r : MergedRegistry H)
    (b : BotModule H) (k : String) (hf : cfg.failOnConflict = true) :
    (firstConflictKey r.commands b.commands = some k →
      mergeBot cfg r b = Except.error ("command conflict detected: " ++ k)) ∧
    (firstConflictKey r.commands b.commands = none →
      firstConflictKey r.callBacks b.callBacks = some k →
      mergeBot cfg r b = Except.error ("callback conflict detected: " ++ k)) := by
  constructor
  · intro h
    simp [mergeBot, mergeCommands_fail_conflict cfg hf b.commands r.commands k h]
  · intro h1 h2
    simp [mergeBot, mergeCommands_fail_ok cfg hf b.commands r.commands h1,
      mergeCallbacks_fail_conflict cfg hf b.callBacks r.callBacks k h2]

/-- C4 witness: `C4_amended` applied to a registry already holding command
`start` and a module that defines `start` again, under fail-on-conflict. -/
theorem C4_witness :
    mergeBot cfgFail c4regStart modRep2
      = Except.error ("command conflict detected: " ++ "start") :=
  (C4_amended cfgFail c4regStart modRep2 "start" rfl).1 (by decide)

theorem mergeCommands_keep {H : Type} (cfg : MergerConfig)
    (hf : cfg.failOnConflict = false)
    (hs : cfg.conflictStrategy = ConflictStrategy.keepOriginal) :
    ∀ (new : List (String × H)) (m : AssocMap String H),
      mergeCommands cfg m new = Except.ok (insertIfAbsentAll m new) := by
  intro new
  induction new with
  | nil => intro m; simp [mergeCommands, insertIfAbsentAll]
  | cons p rest ih =>
    intro m
    obtain ⟨k, v⟩ := p
    cases hv : lookupA m k with
    | some v0 =>
      simp [mergeCommands, hv, handleCommandConflict, hf, hs, insertIfAbsentAll, ih]
    | none =>
      simp [mergeCommands, hv, insertIfAbsentAll, ih]

theorem mergeCallbacks_keep {H : Type} (cfg : MergerConfig)
    (hf : cfg.failOnConflict = false)
    (hs : cfg.conflictStrategy = ConflictStrategy.keepOriginal) :
    ∀ (new : List (String × H)) (m : AssocMap String H),
      mergeCallbacks cfg m new = Except.ok (insertIfAbsentAll m new) := by
  intro new
  induction new with
  | nil => intro m; simp [mergeCallbacks, insertIfAbsentAll]
  | cons p rest ih =>
    intro m
    obtain ⟨k, v⟩ := p
    cases hv : lookupA m k with
    | some v0 =>
      simp [mergeCallbacks, hv, handleCallbackConflict, hf, hs, insertIfAbsentAll, ih]
    | none =>
      simp [mergeCallbacks, hv, insertIfAbsentAll, ih]

theorem lookupA_isSome_insertIfAbsentAll {κ α : Type} [DecidableEq κ] :
    ∀ (new : List (κ × α)) (m : AssocMap κ α) (k : κ),
      (lookupA m k).isSome = true →
      (lookupA (insertIfAbsentAll m new) k).isSome = true := by
  intro new
  induction new with
  | nil => intro m k h; simpa [insertIfAbsentAll] using h
  | cons p rest ih =>
    intro m k h
    obtain ⟨k1, v1⟩ := p
    by_cases hv : (lookupA m k1).isSome = true
    · simpa [insertIfAbsentAll, hv] using ih m k h
    · have hv2 : (lookupA m k1).isSome = false := by
        cases hb : (lookupA m k1).isSome
        · rfl
        · exact absurd hb hv
      simp only [insertIfAbsentAll, hv2, Bool.false_eq_true, if_false]
      exact ih _ k (lookupA_isSome_insertA m k k1 v1 h)

theorem insertIfAbsentAll_mem {κ α : Type} [DecidableEq κ] :
    ∀ (new : List (κ × α)) (m : AssocMap κ α) (p : κ × α), p ∈ new →
      (lookupA (insertIfAbsentAll m new) p.1).isSome = true := by
  intro new
  induction new with
  | nil => intro m p hp; cases hp
  | cons q rest ih =>
    intro m p hp
    obtain ⟨k1, v1⟩ := q
    rcases List.mem_cons.mp hp with hq | hq
    · subst hq
      by_cases hv : (lookupA m k1).isSome = true
      · simpa [insertIfAbsentAll, hv] using
          lookupA_isSome_insertIfAbsentAll rest m k1 hv
      · have hv2 : (lookupA m k1).isSome = false := by
          cases hb : (lookupA m k1).isSome
          · rfl
          · exact absurd hb hv
        simp only [insertIfAbsentAll, hv2, Bool.false_eq_true, if_false]
        exact lookupA_isSome_insertIfAbsentAll rest _ k1
          (by rw [lookupA_insertA_self]; rfl)
    · by_cases hv : (lookupA m k1).isSome = true
      · simpa [insertIfAbsentAll, hv] using ih m p hq
      · have hv2 : (lookupA m k1).isSome = false := by
          cases hb : (lookupA m k1).isSome
          · rfl
          · exact absurd hb hv
        simp only [insertIfAbsentAll, hv2, Bool.false_eq_true, if_false]
        exact ih _ p hq

theorem insertIfAbsentAll_id {κ α : Type} [DecidableEq κ] :
    ∀ (new : List (κ × α)) (m : AssocMap κ α),
      (∀ p ∈ new, (lookupA m p.1).isSome = true) →
      insertIfAbsentAll m new = m := by
  intro new
  induction new with
  | nil => intro m h; simp [insertIfAbsentAll]
  | cons q rest ih =>
    intro m h
    obtain ⟨k1, v1⟩ := q
    have h1 : (lookupA m k1).isSome = true := h (k1, v1) (List.mem_cons_self _ _)
    simp only [insertIfAbsentAll, h1, if_true]
    exact ih m (fun p hp => h p (List.mem_cons_of_mem _ hp))

theorem cmdInList_append {l : List BotCommand} {e : BotCommand} {x : String}
    (h : cmdInList l x = true) : cmdInList (l ++ [e]) x = true := by
  simp only [cmdInList, List.any_append]
  simp [cmdInList] at h
  simp [h]

theorem cmdInList_mergeListOne_mono (cfg : MergerConfig) (l : List BotCommand)
    (c : BotCommand) (x : String) (h : cmdInList l x = true) :
    cmdInList (mergeListOne cfg l c) x = true := by
  unfold mergeListOne
  by_cases hc : cmdInList l c.command
  · simp only [hc, if_true]
    cases cfg.conflictStrategy
    · exact h
    · exact h
    · exact cmdInList_append h
  · simp only [hc, Bool.false_eq_true, if_false]
    by_cases hs : cfg.conflictStrategy ≠ ConflictStrategy.suffixConflicting
    · rw [if_pos hs]
      exact cmdInList_append h
    · rw [if_neg hs]
      exact h

theorem cmdInList_mergeCommandsList_mono (cfg : MergerConfig) :
    ∀ (new : List BotCommand) (l : List BotCommand) (x : String),
      cmdInList l x = true → cmdInList (mergeCommandsList cfg l new) x = true := by
  intro new
  induction new with
  | nil => intro l x h; simpa [mergeCommandsList] using h
  | cons c rest ih =>
    intro l x h
    have : mergeCommandsList cfg l (c :: rest)
        = mergeCommandsList cfg (mergeListOne cfg l c) rest := rfl
    rw [this]
    exact ih _ x (cmdInList_mergeListOne_mono cfg l c x h)

theorem cmdInList_mergeListOne_self (cfg : MergerConfig) (l : List BotCommand)
    (c : BotCommand) (hs : cfg.conflictStrategy = ConflictStrategy.keepOriginal) :
    cmdInList (mergeListOne cfg l c) c.command = true := by
  unfold mergeListOne
  by_cases hc : cmdInList l c.command
  · simp [hc, hs]
  · simp only [hc, Bool.false_eq_true, if_false, hs]
    have hne : ConflictStrategy.keepOriginal ≠ ConflictStrategy.suffixConflicting := by
      intro hx; cases hx
    simp only [ne_eq, hne, not_false_eq_true, if_true]
    simp [cmdInList]

theorem mergeCommandsList_covers (cfg : MergerConfig)
    (hs : cfg.conflictStrategy = ConflictStrategy.keepOriginal) :
    ∀ (new : List BotCommand) (l : List BotCommand) (c : BotCommand), c ∈ new →
      cmdInList (mergeCommandsList cfg l new) c.command = true := by
  intro new
  induction new with
  | nil => intro l c hc; cases hc
  | cons q rest ih =>
    intro l c hc
    have hstep : mergeCommandsList cfg l (q :: rest)
        = mergeCommandsList cfg (mergeListOne cfg l q) rest := rfl
    rw [hstep]
    rcases List.mem_cons.mp hc with hq | hq
    · subst hq
      exact cmdInList_mergeCommandsList_mono cfg rest _ c.command
        (cmdInList_mergeListOne_self cfg l c hs)
    · exact ih _ c hq

theorem mergeListOne_id (cfg : MergerConfig) (l : List BotCommand)
    (c : BotCommand) (hs : cfg.conflictStrategy = ConflictStrategy.keepOriginal)
    (h : cmdInList l c.command = true) : mergeListOne cfg l c = l := by
  unfold mergeListOne
  simp [h, hs]

theorem mergeCommandsList_id (cfg : MergerConfig)
    (hs : cfg.conflictStrategy = ConflictStrategy.keepOriginal) :
    ∀ (new : List BotCommand) (l : List BotCommand),
      (∀ c ∈ new, cmdInList l c.command = true) →
      mergeCommandsList cfg l new = l := by
  intro new
  induction new with
  | nil => intro l h; rfl
  | cons q rest ih =>
    intro l h
    have hstep : mergeCommandsList cfg l (q :: rest)
        = mergeCommandsList cfg (mergeListOne cfg l q) rest := rfl
    rw [hstep, mergeListOne_id cfg l q hs (h q (List.mem_cons_self _ _))]
    exact ih l (fun c hc => h c (List.mem_cons_of_mem _ hc))

/-- C6 amended: merging the same single module twice under keep-original
reproduces the once-merged command map, callback map and command list, but
the middleware chain and the default-handler chain receive a second copy of
the module's contribution (so the registries are not equal whenever the
module has middleware or a default handler — see `C6_counterexample`). -/
theorem C6_amended {H : Type} (cfg : MergerConfig) (b : BotModule H)
    (r1 r2 : MergedRegistry H)
    (hs : cfg.conflictStrategy = ConflictStrategy.keepOriginal)
    (hf : cfg.failOnConflict = false)
    (h1 : mergeBots cfg emptyRegistry [b] = Except.ok r1)
    (h2 : mergeBots cfg emptyRegistry [b, b] = Except.ok r2) :
    r2.commands = r1.commands ∧ r2.callBacks = r1.callBacks ∧
    r2.commandsList = r1.commandsList ∧
    r2.middleware = r1.middleware ++ b.middleware ∧
    r2.defaultHandlers = r1.defaultHandlers ++ [b.defaultHandler] := by
  have hcmds : insertIfAbsentAll (insertIfAbsentAll ([] : AssocMap String H) b.commands) b.commands
      = insertIfAbsentAll ([] : AssocMap String H) b.commands :=
    insertIfAbsentAll_id b.commands _
      (fun p hp => insertIfAbsentAll_mem b.commands [] p hp)
  have hcbs : insertIfAbsentAll (insertIfAbsentAll ([] : AssocMap String H) b.callBacks) b.callBacks
      = insertIfAbsentAll ([] : AssocMap String H) b.callBacks :=
    insertIfAbsentAll_id b.callBacks _
      (fun p hp => insertIfAbsentAll_mem b.callBacks [] p hp)
  have hlist : mergeCommandsList cfg (mergeCommandsList cfg [] b.commandsList) b.commandsList
      = mergeCommandsList cfg [] b.commandsList :=
    mergeCommandsList_id cfg hs b.commandsList _
      (fun c hc => mergeCommandsList_covers cfg hs b.commandsList [] c hc)
  simp only [mergeBots, mergeBot, emptyRegistry,
    mergeCommands_keep cfg hf hs, mergeCallbacks_keep cfg hf hs] at h1 h2
  simp only [hcmds, hcbs, hlist] at h2
  cases h1
  cases h2
  simp

/-- C6 witness: `C6_amended` applied to the concrete module `modKeep` under
the keep-original configuration. -/
theorem C6_witness :
    c6twice.commands = c6once.commands ∧ c6twice.callBacks = c6once.callBacks ∧
    c6twice.commandsList = c6once.commandsList ∧
    c6twice.middleware = c6once.middleware ++ modKeep.middleware ∧
    c6twice.defaultHandlers = c6once.defaultHandlers ++ [modKeep.defaultHandler] :=
  C6_amended cfgKeep modKeep c6once c6twice rfl rfl (by decide) (by decide)

theorem ne_append_right (k S : String) (hS : S ≠ "") : k ++ S ≠ k := by
  intro h
  apply hS
  have hd := congrArg String.data h
  rw [String.data_append] at hd
  have hl := congrArg List.length hd
  rw [List.length_append] at hl
  have h0 : S.data.length = 0 := by omega
  cases S with
  | mk d =>
    have : d = [] := List.eq_nil_of_length_eq_zero h0
    rw [this]

theorem ne_append_left (k S : String) (hS : S ≠ "") : S ++ k ≠ k := by
  intro h
  apply hS
  have hd := congrArg String.data h
  rw [String.data_append] at hd
  have hl := congrArg List.length hd
  rw [List.length_append] at hl
  have h0 : S.data.length = 0 := by omega
  cases S with
  | mk d =>
    have : d = [] := List.eq_nil_of_length_eq_zero h0
    rw [this]

/-- C7: under suffix-conflicting with suffix `S` (required non-empty at
construction, last conjunct), a collision on key `k` keeps the original
entry at `k` and stores the new entry at `k ++ S` for commands and at
`S ++ k` for callback patterns; both are independently resolvable and the
suffixed key collides with nothing, under the assumption that the suffixed
key is not already in use. -/
theorem C7_suffix_strategy {H : Type} (cfg : MergerConfig)
    (mc cb : AssocMap String H) (k : String) (v0 v1 w0 w1 : H)
    (hs : cfg.conflictStrategy = ConflictStrategy.suffixConflicting)
    (hf : cfg.failOnConflict = false)
    (hS : cfg.defaultSuffix ≠ "")
    (hk : lookupA mc k = some v0)
    (hkS : lookupA mc (k ++ cfg.defaultSuffix) = none)
    (hc : lookupA cb k = some w0)
    (hcS : lookupA cb (cfg.defaultSuffix ++ k) = none) :
    (mergeCommands cfg mc [(k, v1)]
        = Except.ok (insertA mc (k ++ cfg.defaultSuffix) v1) ∧
      lookupA (insertA mc (k ++ cfg.defaultSuffix) v1) k = some v0 ∧
      lookupA (insertA mc (k ++ cfg.defaultSuffix) v1) (k ++ cfg.defaultSuffix)
        = some v1) ∧
    (mergeCallbacks cfg cb [(k, w1)]
        = Except.ok (insertA cb (cfg.defaultSuffix ++ k) w1) ∧
      lookupA (insertA cb (cfg.defaultSuffix ++ k) w1) k = some w0 ∧
      lookupA (insertA cb (cfg.defaultSuffix ++ k) w1) (cfg.defaultSuffix ++ k)
        = some w1) ∧
    (∀ cfg2 : MergerConfig, cfg2.hasLogger = true →
      cfg2.conflictStrategy = ConflictStrategy.suffixConflicting →
      cfg2.defaultSuffix = "" →
      NewBotMerger cfg2
        = (Except.error
            "invalid merger config: default suffix must be set when using SuffixConflicting strategy"
          : Except String (MergedRegistry H))) := by
  refine ⟨⟨?_, ?_, ?_⟩, ⟨?_, ?_, ?_⟩, ?_⟩
  · simp [mergeCommands, hk, handleCommandConflict, hf, hs]
  · rw [lookupA_insertA]
    rw [if_neg (fun hx => ne_append_right k cfg.defaultSuffix hS hx.symm)]
    exact hk
  · exact lookupA_insertA_self mc (k ++ cfg.defaultSuffix) v1
  · simp [mergeCallbacks, hc, handleCallbackConflict, hf, hs]
  · rw [lookupA_insertA]
    rw [if_neg (fun hx => ne_append_left k cfg.defaultSuffix hS hx.symm)]
    exact hc
  · exact lookupA_insertA_self cb (cfg.defaultSuffix ++ k) w1
  · intro cfg2 h1 h2 h3
    simp [NewBotMerger, validateConfig, h1, h2, h3]

/-- C7 witness: `C7_suffix_strategy` applied to concrete one-entry maps
under the suffix configuration with suffix `_x`. -/
theorem C7_witness :
    mergeCommands cfgSuffix [("start", (1 : Nat))] [("start", 2)]
      = Except.ok (insertA [("start", (1 : Nat))] ("start" ++ cfgSuffix.defaultSuffix) 2) :=
  (C7_suffix_strategy cfgSuffix [("start", (1 : Nat))] [("start", (1 : Nat))]
    "start" 1 2 1 2 rfl rfl (by decide) (by decide) (by decide) (by decide)
    (by decide)).1.1

theorem modifyAt_length : ∀ (l : List Slot) (n : Nat) (f : Slot → Slot),
    (modifyAt l n f).length = l.length := by
  intro l
  induction l with
  | nil => intro n f; rfl
  | cons s rest ih =>
    intro n f
    cases n with
    | zero => rfl
    | succ m => simp [modifyAt, ih]

theorem get_modifyAt_self : ∀ (l : List Slot) (n : Nat) (f : Slot → Slot),
    (modifyAt l n f).get? n = (l.get? n).map f := by
  intro l
  induction l with
  | nil => intro n f; cases n <;> rfl
  | cons s rest ih =>
    intro n f
    cases n with
    | zero => rfl
    | succ m => simpa [modifyAt] using ih m f

theorem getRequest_createRequest (st : LoginBotState) (chat : ChatID)
    (reqType : String) (now : Nat) :
    (createRequest st chat reqType now).2 = st.slots.length ∧
    getRequest (createRequest st chat reqType now).1 chat reqType
      = some (createRequest st chat reqType now).2 := by
  unfold createRequest getRequest
  cases hx : lookupA ((lookupA st.loginRequests chat).getD []) reqType with
  | some oldSid =>
    simp [hx, closeChan, cancelCtx, modifyAt_length, lookupA_insertA_self]
  | none =>
    simp [hx, lookupA_insertA_self]

/-- C8: for every ask operation (phone, code, two-factor), a failure of the
Sender collaborator makes the ask return that send error immediately, with
the state — and hence the conversation table — unchanged and no slot
created (the send error is wrapped exactly once, with no retry); when the
prompt send succeeds, the ask opens a slot for the matching kind. -/
theorem C8_send_failure_no_slot (send : SendOracle) (st : LoginBotState)
    (chat : ChatID) (now : Nat) (e : String) (attempts : Int) :
    (send chat phoneMsg = some e →
      askPhoneStart send st chat now
        = { state := st, sent := [(chat, phoneMsg)],
            result := Except.error (LoginErr.sendFailed ("failed to send phone request: " ++ e)) }) ∧
    (send chat loginCodeMsg = some e →
      sendCodeRequestStart send st chat now
        = { state := st, sent := [(chat, loginCodeMsg)],
            result := Except.error (LoginErr.sendFailed ("failed to send login code request: " ++ e)) }) ∧
    (0 < attempts → send chat (msg2FaIncorrect attempts) = some e →
      ask2FAStart send st chat attempts now
        = { state := st, sent := [(chat, msg2FaIncorrect attempts)],
            result := Except.error (LoginErr.sendFailed ("send 2fa incorrect message: " ++ e)) }) ∧
    (attempts ≤ 0 → send chat twofaCodeMsg = some e →
      ask2FAStart send st chat attempts now
        = { state := st, sent := [(chat, twofaCodeMsg)],
            result := Except.error (LoginErr.sendFailed ("failed to send 2fa request: " ++ e)) }) ∧
    (send chat phoneMsg = none →
      (askPhoneStart send st chat now).result = Except.ok st.slots.length ∧
      getRequest (askPhoneStart send st chat now).state chat reqTypePhone
        = some st.slots.length) ∧
    (send chat loginCodeMsg = none →
      (sendCodeRequestStart send st chat now).result = Except.ok st.slots.length ∧
      getRequest (sendCodeRequestStart send st chat now).state chat reqTypeCode
        = some st.slots.length) ∧
    (attempts ≤ 0 → send chat twofaCodeMsg = none →
      (ask2FAStart send st chat attempts now).result = Except.ok st.slots.length ∧
      getRequest (ask2FAStart send st chat attempts now).state chat reqType2Fa
        = some st.slots.length) := by
  have hcrP := getRequest_createRequest st chat reqTypePhone now
  have hcrC := getRequest_createRequest st chat reqTypeCode now
  have hcrF := getRequest_createRequest st chat reqType2Fa now
  refine ⟨?_, ?_, ?_, ?_, ?_, ?_, ?_⟩
  · intro h; simp [askPhoneStart, h]
  · intro h; simp [sendCodeRequestStart, h]
  · intro ha h
    unfold ask2FAStart
    rw [if_pos ha]
    simp [h]
  · intro ha h
    unfold ask2FAStart
    rw [if_neg (by omega)]
    simp [ask2FAMain, h]
  · intro h
    simp only [askPhoneStart, h]
    exact ⟨by rw [hcrP.1], by rw [hcrP.2, hcrP.1]⟩
  · intro h
    simp only [sendCodeRequestStart, h]
    exact ⟨by rw [hcrC.1], by rw [hcrC.2, hcrC.1]⟩
  · intro ha h
    unfold ask2FAStart
    rw [if_neg (by omega)]
    simp only [ask2FAMain, h]
    refine ⟨by rw [hcrF.1], ?_⟩
    show getRequest (createRequest st chat reqType2Fa now).1 chat reqType2Fa
      = some st.slots.length
    rw [hcrF.2, hcrF.1]

/-- C8 witness: `C8_send_failure_no_slot` applied to a sender that fails
with error `boom`. -/
theorem C8_witness :
    askPhoneStart sendFail emptyLoginState 5 0
      = { state := emptyLoginState, sent := [(5, phoneMsg)],
          result := Except.error (LoginErr.sendFailed ("failed to send phone request: " ++ "boom")) } :=
  (C8_send_failure_no_slot sendFail emptyLoginState 5 0 "boom" 1).1 rfl

theorem plus_prepend_ne_empty (p : String) : ("+" ++ p) ≠ "" := by
  intro h
  have hd := congrArg String.data h
  rw [String.data_append] at hd
  have hl := congrArg List.length hd
  rw [List.length_append] at hl
  have h1 : ("+" : String).data.length = 1 := by decide
  have h0 : ("" : String).data.length = 0 := by decide
  omega

theorem hasPrefixStr_plus_prepend (p : String) :
    hasPrefixStr ("+" ++ p) "+" = true := by
  unfold hasPrefixStr
  rw [String.data_append]
  have h1 : ("+" : String).data = ['+'] := by decide
  rw [h1]
  simp

theorem removeRequest_slots (st : LoginBotState) (chat : ChatID) (r : String)
    (reqs : AssocMap String Nat) (sid : Nat)
    (hx : lookupA st.loginRequests chat = some reqs)
    (hr : lookupA reqs r = some sid) :
    (removeRequest st chat r).slots
      = modifyAt st.slots sid (fun s => { s with ctxDone := true }) := by
  simp only [removeRequest, hx, hr]
  by_cases he : (eraseA reqs r).isEmpty = true <;> simp [he, cancelCtx]

/-- C10: a phone answer delivered into an open phone slot is trimmed and
parsed (the phone-number library is abstracted as `parse`); an unparseable
answer (empty parse result) triggers the corrective prompt and leaves the
slot and state untouched, while a parseable one is prefixed with `+` when
needed, so the value an error-free `AskPhone` receives from its answer
channel is always non-empty and begins with `+`. -/
theorem C10_phone_normalized (send : SendOracle) (parse : String → String)
    (st : LoginBotState) (chat : ChatID) (text : String) (sid : Nat) (slot : Slot)
    (hreq : getRequest st chat reqTypePhone = some sid)
    (hslot : st.slots.get? sid = some slot)
    (hopen : slot.chanVal = none) (hclosed : slot.chanClosed = false) :
    (parse (trimSpace text) = "" →
      handlePhoneCallback send parse st chat text
        = { state := st, sent := [(chat, "Invalid phone number")] }) ∧
    (parse (trimSpace text) ≠ "" →
      ∃ v, v ≠ "" ∧ hasPrefixStr v "+" = true ∧
        (askResolve (handlePhoneCallback send parse st chat text).state
            chat reqTypePhone sid true).map Prod.snd
          = some (Except.ok v)) := by
  obtain ⟨reqs, hx, hr⟩ : ∃ reqs, lookupA st.loginRequests chat = some reqs ∧
      lookupA reqs reqTypePhone = some sid := by
    unfold getRequest at hreq
    cases hx : lookupA st.loginRequests chat with
    | some reqs => rw [hx] at hreq; exact ⟨reqs, rfl, hreq⟩
    | none => rw [hx] at hreq; cases hreq
  constructor
  · intro hp
    simp [handlePhoneCallback, hreq, hp]
  · intro hp
    set p0 := parse (trimSpace text) with hp0
    set phone := if hasPrefixStr p0 "+" then p0 else "+" ++ p0 with hphone
    refine ⟨phone, ?_, ?_, ?_⟩
    · rw [hphone]
      by_cases hpre : hasPrefixStr p0 "+" = true
      · simpa [hpre] using hp
      · simp only [hpre, Bool.false_eq_true, if_false]
        exact plus_prepend_ne_empty p0
    · rw [hphone]
      by_cases hpre : hasPrefixStr p0 "+" = true
      · rw [if_pos hpre]
        exact hpre
      · simp only [hpre, Bool.false_eq_true, if_false]
        exact hasPrefixStr_plus_prepend p0
    · have hslot2 : st.slots[sid]? = some slot := by
        simpa using hslot
      have hts : trySendSlot st sid phone
          = ({ st with slots := modifyAt st.slots sid (fun s => { s with chanVal := some phone }) },
             true) := by
        simp [trySendSlot, hslot2, hopen, hclosed]
      have hcall : handlePhoneCallback send parse st chat text
          = { state :=
                removeRequest
                  { st with slots := modifyAt st.slots sid (fun s => { s with chanVal := some phone }) }
                  chat reqTypePhone,
              sent := [] } := by
        simp only [handlePhoneCallback, hreq]
        rw [if_neg hp]
        rw [← hphone, hts]
        simp
      rw [hcall]
      have hslots : (removeRequest
            { st with slots := modifyAt st.slots sid (fun s => { s with chanVal := some phone }) }
            chat reqTypePhone).slots
          = modifyAt (modifyAt st.slots sid (fun s => { s with chanVal := some phone })) sid
              (fun s => { s with ctxDone := true }) :=
        removeRequest_slots _ chat reqTypePhone reqs sid hx hr
      have hget : (removeRequest
            { st with slots := modifyAt st.slots sid (fun s => { s with chanVal := some phone }) }
            chat reqTypePhone).slots.get? sid
          = some { slot with chanVal := some phone, ctxDone := true } := by
        rw [hslots, get_modifyAt_self, get_modifyAt_self, hslot]
        rfl
      have hget2 : (removeRequest
            { st with slots := modifyAt st.slots sid (fun s => { s with chanVal := some phone }) }
            chat reqTypePhone).slots[sid]?
          = some { slot with chanVal := some phone, ctxDone := true } := by
        simpa using hget
      simp [askResolve, hget2]

/-- C10 witness: `C10_phone_normalized` applied to the open phone slot of
`st42a` with a parser returning a bare national-format number. -/
theorem C10_witness :
    ∃ v, v ≠ "" ∧ hasPrefixStr v "+" = true ∧
      (askResolve (handlePhoneCallback sendOK parseConst st42a 42 "my number").state
          42 reqTypePhone 0 true).map Prod.snd
        = some (Except.ok v) :=
  (C10_phone_normalized sendOK parseConst st42a 42 "my number" 0 slotPhone
    (by decide) (by decide) rfl rfl).2 (by decide)

end Tgbot
